import Mathlib

/-!
Shallow embedding of the HASH_CHAT session protocol and message-state
machine (src/src/App.tsx, src/src/types.ts, src/src/constants.ts).

Modelling conventions:
* React `useState` variables and the `peerRef`/`connRef` refs become fields
  of `AppState`.  `peer` holds the identity the current `Peer` object was
  created with (`none` = `peerRef.current === null`); `conn` holds the
  remote peer id of the held `DataConnection` (`none` = `connRef.current
  === null`).
* `conn.send(...)` calls are recorded in the `sentEnvelopes` trace field,
  in call order, so that "no envelope is sent" claims are statable.
* Ambient effects (`Math.random()` id generation, `Date.now()`,
  `URL.createObjectURL`) are injected as explicit parameters (`freshId`,
  `now`, `blobUrl`) of the operations that use them, following the spec's
  "injected id generator" design note.  Log-entry ids and timestamps are
  not modelled: no claim mentions them and they are independent random
  draws per entry.
* TypeScript optional booleans (`isEdited?`, `isDeleted?`) are modelled as
  `Bool` with default `false`: the code only ever reads them for truthiness.
* Event handlers registered in `setupConnection` / the peer-init effect
  become the `onConn*` / `onPeer*` functions; each takes the current state
  and the event payload.  The try/catch around `peer.connect` models the
  non-throwing path (a throw is a transport fault outside the core).
-/

inductive Sender where
  | loc    -- 'local'
  | remote
  | system
deriving DecidableEq, Repr

inductive MsgType where
  | text
  | file
deriving DecidableEq, Repr

inductive MsgStatus where
  | sending
  | sent
  | delivered
deriving DecidableEq, Repr

structure FileMeta where
  name : String
  size : Nat
  mimeType : String
  blobUrl : Option String := none
deriving DecidableEq, Repr

structure ReplyContext where
  id : String
  sender : Sender
  content : String
deriving DecidableEq, Repr

structure Message where
  id : String
  sender : Sender
  senderId : Option String := none
  content : String
  timestamp : Nat
  type : MsgType
  file : Option FileMeta := none
  status : Option MsgStatus := none
  replyTo : Option ReplyContext := none
  isEdited : Bool := false
  isDeleted : Bool := false
deriving DecidableEq, Repr

inductive ConnectionStatus where
  | OFFLINE
  | IDLE
  | INITIALIZING
  | READY
  | CONNECTING
  | CONNECTED
  | ERROR
deriving DecidableEq, Repr

inductive LogType where
  | info
  | success
  | warning
  | error
deriving DecidableEq, Repr

structure LogEntry where
  message : String
  type : LogType
deriving DecidableEq, Repr

/-- Wire envelopes exchanged over the data connection (the `data.type`
dispatch in `conn.on('data')` plus the shapes built at each `conn.send`
site).  The binary payload of a `file` envelope is opaque to the core and
is not modelled. -/
inductive Envelope where
  | text (content : String) (replyTo : Option ReplyContext)
  | file (id : String) (name : String) (size : Nat) (mimeType : String)
  | ack (messageId : String)
  | edit (messageId : String) (content : String)
  | delete (messageId : String)
  | typing (isTyping : Bool)
deriving DecidableEq, Repr

structure AppState where
  isSystemOn : Bool
  status : ConnectionStatus
  isRemoteTyping : Bool
  desiredId : String
  peerId : String
  messages : List Message
  logs : List LogEntry
  peer : Option String
  conn : Option String
  sentEnvelopes : List Envelope
deriving DecidableEq, Repr

/-- Source `addLog` (App.tsx:73): appends one diagnostic entry. -/
def addLog (s : AppState) (message : String) (type : LogType) : AppState :=
  { s with logs := s.logs ++ [{ message := message, type := type }] }

/-- Source `addSystemMessage` (App.tsx:82): appends a system-authored text message. -/
def addSystemMessage (s : AppState) (freshId : String) (now : Nat)
    (content : String) : AppState :=
  { s with messages := s.messages ++
      [{ id := freshId, sender := .system, content := content,
         timestamp := now, type := .text }] }

/-- Source `conn.send(e)`: record the envelope in the send trace. -/
def connSend (s : AppState) (e : Envelope) : AppState :=
  { s with sentEnvelopes := s.sentEnvelopes ++ [e] }

/-- Source `clearChat` (App.tsx:97). -/
def clearChat (s : AppState) : AppState :=
  addLog { s with messages := [] } "Message buffer cleared." .warning

/-- Source `clearLogs` (App.tsx:92). -/
def clearLogs (s : AppState) : AppState :=
  addLog { s with logs := [] } "System logs purged." .warning

/-- The `conn.on('open')` handler installed by `setupConnection`
(App.tsx:105-109). -/
def onConnOpen (freshId : String) (now : Nat) (s : AppState) : AppState :=
  let s1 := { s with status := .CONNECTED }
  let s2 := addLog s1 "Uplink established. Channel secure." .success
  addSystemMessage s2 freshId now
    ("Encrypted connection established with " ++ s.conn.getD "")

/-- The `conn.on('data')` handler installed by `setupConnection`
(App.tsx:111-181): dispatch on the envelope kind.  `freshId`, `now` and
`blobUrl` are the ambient values consumed when a remote `text`/`file`
message is appended. -/
def onConnData (freshId : String) (now : Nat) (blobUrl : String)
    (d : Envelope) (s : AppState) : AppState :=
  match d with
  | .typing b => { s with isRemoteTyping := b }
  | .ack mid =>
      { s with messages := s.messages.map (fun msg =>
          if msg.id = mid then { msg with status := some .delivered } else msg) }
  | .edit mid c =>
      { s with messages := s.messages.map (fun msg =>
          if msg.id = mid then { msg with content := c, isEdited := true } else msg) }
  | .delete mid =>
      { s with messages := s.messages.map (fun msg =>
          if msg.id = mid then { msg with isDeleted := true } else msg) }
  | .text c replyTo =>
      let s1 := { s with isRemoteTyping := false }
      { s1 with messages := s1.messages ++
          [{ id := freshId, sender := .remote, senderId := some (s.conn.getD ""),
             content := c, timestamp := now, type := .text, replyTo := replyTo }] }
  | .file i n size mt =>
      let s1 := { s with isRemoteTyping := false }
      let s2 := { s1 with messages := s1.messages ++
          [{ id := freshId, sender := .remote, senderId := some (s.conn.getD ""),
             content := "Received file: " ++ n, timestamp := now, type := .file,
             file := some { name := n, size := size, mimeType := mt,
                            blobUrl := some blobUrl } }] }
      let s3 := addLog s2 ("Received file packet: " ++ n) .success
      connSend s3 (.ack i)

/-- The `conn.on('close')` handler (App.tsx:183-189). -/
def onConnClose (freshId : String) (now : Nat) (s : AppState) : AppState :=
  let s1 := { s with status := .READY, conn := none, isRemoteTyping := false }
  let s2 := addLog s1 "Carrier signal lost." .warning
  addSystemMessage s2 freshId now "Remote peer terminated connection."

/-- The `conn.on('error')` handler (App.tsx:191-195).  Note: it does not
null out `connRef.current`. -/
def onConnError (errMsg : String) (s : AppState) : AppState :=
  let s1 := addLog s ("Connection error: " ++ errMsg) .error
  { s1 with status := .READY, isRemoteTyping := false }

/-- Source `connectToPeer` (App.tsx:198-219).  `peer.connect(targetId)` followed by
`setupConnection(conn)` installs the new connection as `connRef.current`
immediately (the channel opens later via `onConnOpen`). -/
def connectToPeer (targetId : String) (s : AppState) : AppState :=
  if s.peer = none then s
  else if s.status = .CONNECTED then
    addLog s "Already connected. Terminate current link first." .warning
  else if targetId = s.peerId then
    addLog s "Cannot connect to self. Targeting external node required." .error
  else
    let s1 := addLog s ("Initiating handshake with " ++ targetId ++ "...") .info
    let s2 := { s1 with status := .CONNECTING }
    { s2 with conn := some targetId }

/-- Source `handleIdentityChange` (App.tsx:222-227).  The localStorage write is an
ambient effect; the `desiredId` update re-triggers `peerInitEffect`. -/
def handleIdentityChange (newId : String) (s : AppState) : AppState :=
  if newId = s.peerId then s
  else
    let s1 := addLog s ("Re-initializing node with new identity: " ++ newId) .info
    { s1 with desiredId := newId }

/-- Source `togglePower` (App.tsx:229-245). -/
def togglePower (freshId : String) (now : Nat) (s : AppState) : AppState :=
  if s.isSystemOn then
    let s1 := { s with isSystemOn := false, status := .OFFLINE, peerId := "",
                       peer := none, conn := none }
    let s2 := addLog s1 "SYSTEM SHUTDOWN SEQUENCE INITIATED..." .warning
    addSystemMessage s2 freshId now "System offline."
  else
    addLog { s with isSystemOn := true } "SYSTEM BOOT SEQUENCE INITIATED..." .success

/-- Source `handleTyping` (App.tsx:248-255). -/
def handleTyping (isTyping : Bool) (s : AppState) : AppState :=
  if s.conn ≠ none ∧ s.status = .CONNECTED then
    connSend s (.typing isTyping)
  else s

/-- The synchronous body of the peer-initialization effect
(App.tsx:257-304): destroy any previous peer, reset status/peerId/typing,
log, and register a new `Peer` under `desiredId`.  (The effect body does
not touch `connRef.current` or `messages`.) -/
def peerInitEffect (s : AppState) : AppState :=
  if s.isSystemOn = false then s
  else
    let s1 := { s with status := .INITIALIZING, peerId := "",
                       isRemoteTyping := false }
    let s2 := addLog s1 "Generating cryptographic identity..." .info
    { s2 with peer := some s.desiredId }

/-- The `peer.on('open')` handler (App.tsx:275-279). -/
def onPeerOpen (id : String) (s : AppState) : AppState :=
  addLog { s with peerId := id, status := .READY }
    ("Identity confirmed: " ++ id) .success

/-- The `peer.on('connection')` handler (App.tsx:281-289).  The returned
Bool records whether the incoming offer was closed (`conn.close()`),
i.e. rejected. -/
def onPeerConnection (remotePeer : String) (s : AppState) : AppState × Bool :=
  if s.conn ≠ none then
    (addLog s "Rejected concurrent connection attempt" .warning, true)
  else
    let s1 := { s with conn := some remotePeer }
    (addLog s1 ("Incoming handshake from: " ++ remotePeer) .warning, false)

/-- The `peer.on('error')` handler (App.tsx:291-299). -/
def onPeerError (errType errMsg : String) (s : AppState) : AppState :=
  let s1 :=
    if errType = "unavailable-id" then
      addLog s ("ID Collision: \"" ++ s.desiredId ++ "\" is already in use.") .error
    else
      addLog s ("PROTOCOL ERROR: " ++ errMsg) .error
  { s1 with status := .ERROR }

/-- Source `sendMessage` (App.tsx:322-341). -/
def sendMessage (content : String) (replyTo : Option ReplyContext)
    (freshId : String) (now : Nat) (s : AppState) : AppState :=
  if s.conn = none ∨ s.status ≠ .CONNECTED then
    addLog s "Cannot send: No active uplink." .error
  else
    let s1 := connSend s (.text content replyTo)
    { s1 with messages := s1.messages ++
        [{ id := freshId, sender := .loc, senderId := some s.peerId,
           content := content, timestamp := now, type := .text,
           status := some .sent, replyTo := replyTo }] }

/-- Source `handleEditMessage` (App.tsx:343-357). -/
def handleEditMessage (id newContent : String) (s : AppState) : AppState :=
  if s.conn = none ∨ s.status ≠ .CONNECTED then s
  else
    let s1 := connSend s (.edit id newContent)
    { s1 with messages := s1.messages.map (fun msg =>
        if msg.id = id then { msg with content := newContent, isEdited := true }
        else msg) }

/-- Source `handleDeleteMessage` (App.tsx:359-372). -/
def handleDeleteMessage (id : String) (s : AppState) : AppState :=
  if s.conn = none ∨ s.status ≠ .CONNECTED then s
  else
    let s1 := connSend s (.delete id)
    { s1 with messages := s1.messages.map (fun msg =>
        if msg.id = id then { msg with isDeleted := true } else msg) }

/-- Source `sendFile` (App.tsx:374-406).  `msgId` is the injected generated id,
`blobUrl` the ambient `URL.createObjectURL` result.  The human-readable
size suffix of the diagnostic entry is elided (float formatting). -/
def sendFile (name : String) (size : Nat) (mimeType : String)
    (msgId : String) (now : Nat) (blobUrl : String) (s : AppState) : AppState :=
  if s.conn = none ∨ s.status ≠ .CONNECTED then
    addLog s "Cannot send: No active uplink." .error
  else
    let s1 := addLog s ("Initiating file transfer: " ++ name ++ "...") .info
    let s2 := connSend s1 (.file msgId name size mimeType)
    { s2 with messages := s2.messages ++
        [{ id := msgId, sender := .loc, senderId := some s.peerId,
           content := "Sending file: " ++ name, timestamp := now, type := .file,
           status := some .sending,
           file := some { name := name, size := size, mimeType := mimeType,
                          blobUrl := some blobUrl } }] }

/-- Source `disconnect` (App.tsx:408-416). -/
def disconnect (s : AppState) : AppState :=
  if s.conn ≠ none then
    addLog { s with conn := none, status := .READY, isRemoteTyping := false }
      "Manual disconnect initiated." .info
  else s

/-- One core event/action, with its injected ambient values: the alphabet
over which sequences of operations range.  (`clearChat`/`clearLogs` are the
explicit bulk-clear user actions, outside the reducer operations the
claims quantify over.) -/
inductive Op where
  | connData (freshId : String) (now : Nat) (blobUrl : String) (d : Envelope)
  | connOpen (freshId : String) (now : Nat)
  | connClose (freshId : String) (now : Nat)
  | connError (errMsg : String)
  | peerOpen (id : String)
  | inboundOffer (remotePeer : String)
  | peerError (errType errMsg : String)
  | connect (targetId : String)
  | identityChange (newId : String)
  | peerInit
  | power (freshId : String) (now : Nat)
  | typing (isTyping : Bool)
  | sendMsg (content : String) (replyTo : Option ReplyContext)
      (freshId : String) (now : Nat)
  | editMsg (id newContent : String)
  | deleteMsg (id : String)
  | sendF (name : String) (size : Nat) (mimeType : String)
      (msgId : String) (now : Nat) (blobUrl : String)
  | disc
deriving DecidableEq, Repr

def applyOp (op : Op) (s : AppState) : AppState :=
  match op with
  | .connData freshId now blobUrl d => onConnData freshId now blobUrl d s
  | .connOpen freshId now => onConnOpen freshId now s
  | .connClose freshId now => onConnClose freshId now s
  | .connError errMsg => onConnError errMsg s
  | .peerOpen id => onPeerOpen id s
  | .inboundOffer remotePeer => (onPeerConnection remotePeer s).1
  | .peerError errType errMsg => onPeerError errType errMsg s
  | .connect targetId => connectToPeer targetId s
  | .identityChange newId => handleIdentityChange newId s
  | .peerInit => peerInitEffect s
  | .power freshId now => togglePower freshId now s
  | .typing b => handleTyping b s
  | .sendMsg content replyTo freshId now => sendMessage content replyTo freshId now s
  | .editMsg id newContent => handleEditMessage id newContent s
  | .deleteMsg id => handleDeleteMessage id s
  | .sendF name size mimeType msgId now blobUrl =>
      sendFile name size mimeType msgId now blobUrl s
  | .disc => disconnect s

def applyOps (ops : List Op) (s : AppState) : AppState :=
  ops.foldl (fun s op => applyOp op s) s

/-- Whether an operation is the application of an inbound `ack` envelope
for the given message id. -/
def isAckFor (mid : String) : Op → Bool
  | .connData _ _ _ (.ack m) => m == mid
  | _ => false

/-- The target message id of a mutation-signal envelope
(ack/edit/delete), `none` for the other kinds. -/
def sigId : Envelope → Option String
  | .ack mid => some mid
  | .edit mid _ => some mid
  | .delete mid => some mid
  | _ => none

/-- Concrete state: identity `AAA111` registered and confirmed, no active
channel. -/
def readyState : AppState :=
  { isSystemOn := true, status := .READY, isRemoteTyping := false,
    desiredId := "AAA111", peerId := "AAA111", messages := [], logs := [],
    peer := some "AAA111", conn := none, sentEnvelopes := [] }

/-- Concrete state: connected to remote peer `BBB222`. -/
def connectedState : AppState :=
  { readyState with status := .CONNECTED, conn := some "BBB222" }

/-- Concrete state: the peer object exists (`peerRef.current ≠ null`, set
synchronously when the init effect runs) but registration is still in
flight, so the session is `INITIALIZING` and `peerId` is still empty. -/
def initializingState : AppState :=
  { isSystemOn := true, status := .INITIALIZING, isRemoteTyping := false,
    desiredId := "AAA111", peerId := "", messages := [], logs := [],
    peer := some "AAA111", conn := none, sentEnvelopes := [] }

/-- Concrete state: powered on but before the init effect has run
(`peerRef.current = null`). -/
def bootState : AppState :=
  { isSystemOn := true, status := .INITIALIZING, isRemoteTyping := false,
    desiredId := "AAA111", peerId := "", messages := [], logs := [],
    peer := none, conn := none, sentEnvelopes := [] }

/-- A concrete local message with a delivery status, as created by
`sendMessage` in `connectedState`. -/
def sentMsg : Message :=
  { id := "m1", sender := .loc, senderId := some "AAA111", content := "hello",
    timestamp := 5, type := .text, status := some .sent }

/-- Source `connectedState` holding one sent local message. -/
def chattingState : AppState :=
  { connectedState with messages := [sentMsg] }

/-! Helper relations for the status-monotonicity claims. -/

/-- Numeric rank of a message status (`none` = remote/system entry with no
status). -/
def statusRank : Option MsgStatus → Nat
  | none => 0
  | some .sending => 1
  | some .sent => 2
  | some .delivered => 3

/-- One message advances into another: same id, status rank never
decreases, and any status change lands on `delivered`. -/
def MsgAdv (a b : Message) : Prop :=
  b.id = a.id ∧ statusRank a.status ≤ statusRank b.status ∧
    (b.status ≠ a.status → b.status = some .delivered)

/-- Pointwise advance of a message list: every record keeps its position
and advances. -/
def LogAdv (l l' : List Message) : Prop :=
  ∀ (i : Nat) (a : Message), l[i]? = some a → ∃ b, l'[i]? = some b ∧ MsgAdv a b

theorem statusRank_le_three (x : Option MsgStatus) : statusRank x ≤ 3 := by
  cases x with
  | none => exact Nat.zero_le 3
  | some v => cases v <;> simp [statusRank]

theorem msgAdv_refl (a : Message) : MsgAdv a a :=
  ⟨rfl, Nat.le_refl _, fun h => absurd rfl h⟩

theorem msgAdv_trans {a b c : Message} (hab : MsgAdv a b) (hbc : MsgAdv b c) :
    MsgAdv a c := by
  refine ⟨hbc.1.trans hab.1, Nat.le_trans hab.2.1 hbc.2.1, fun hca => ?_⟩
  by_cases h : c.status = b.status
  · rw [h]
    exact hab.2.2 (fun hba => hca (h.trans hba))
  · exact hbc.2.2 h

theorem logAdv_refl (l : List Message) : LogAdv l l :=
  fun _ a ha => ⟨a, ha, msgAdv_refl a⟩

theorem logAdv_trans {l l' l'' : List Message} (h1 : LogAdv l l')
    (h2 : LogAdv l' l'') : LogAdv l l'' := by
  intro i a ha
  obtain ⟨b, hb, hab⟩ := h1 i a ha
  obtain ⟨c, hc, hbc⟩ := h2 i b hb
  exact ⟨c, hc, msgAdv_trans hab hbc⟩

theorem logAdv_append (l t : List Message) : LogAdv l (l ++ t) := by
  intro i a ha
  have hlt : i < l.length := (List.getElem?_eq_some.mp ha).1
  exact ⟨a, by rw [List.getElem?_append_left hlt]; exact ha, msgAdv_refl a⟩

theorem logAdv_map (l : List Message) (f : Message → Message)
    (h : ∀ m, MsgAdv m (f m)) : LogAdv l (l.map f) := by
  intro i a ha
  refine ⟨f a, ?_, h a⟩
  rw [List.getElem?_map, ha, Option.map_some']

/-- Every core operation only ever advances the records of the message
log: records keep their position and id, status ranks never decrease, and
any status change lands on `delivered`. -/
theorem applyOp_logAdv (op : Op) (s : AppState) :
    LogAdv s.messages (applyOp op s).messages := by
  cases op with
  | connData freshId now blobUrl d =>
    cases d with
    | text c replyTo => exact logAdv_append _ _
    | file i n size mt => exact logAdv_append _ _
    | ack mid =>
      refine logAdv_map _ _ (fun m => ?_)
      by_cases h : m.id = mid
      · simp only [if_pos h]
        exact ⟨rfl, statusRank_le_three _, fun _ => rfl⟩
      · simp only [if_neg h]
        exact msgAdv_refl m
    | edit mid c =>
      refine logAdv_map _ _ (fun m => ?_)
      by_cases h : m.id = mid
      · simp only [if_pos h]
        exact ⟨rfl, Nat.le_refl _, fun h' => absurd rfl h'⟩
      · simp only [if_neg h]
        exact msgAdv_refl m
    | delete mid =>
      refine logAdv_map _ _ (fun m => ?_)
      by_cases h : m.id = mid
      · simp only [if_pos h]
        exact ⟨rfl, Nat.le_refl _, fun h' => absurd rfl h'⟩
      · simp only [if_neg h]
        exact msgAdv_refl m
    | typing b => exact logAdv_refl _
  | connOpen freshId now => exact logAdv_append _ _
  | connClose freshId now => exact logAdv_append _ _
  | connError errMsg => exact logAdv_refl _
  | peerOpen id => exact logAdv_refl _
  | inboundOffer remotePeer =>
    show LogAdv s.messages ((onPeerConnection remotePeer s).1).messages
    unfold onPeerConnection
    split <;> exact logAdv_refl _
  | peerError errType errMsg =>
    show LogAdv s.messages (onPeerError errType errMsg s).messages
    unfold onPeerError
    split <;> exact logAdv_refl _
  | connect targetId =>
    show LogAdv s.messages (connectToPeer targetId s).messages
    unfold connectToPeer
    split
    · exact logAdv_refl _
    split
    · exact logAdv_refl _
    split
    · exact logAdv_refl _
    · exact logAdv_refl _
  | identityChange newId =>
    show LogAdv s.messages (handleIdentityChange newId s).messages
    unfold handleIdentityChange
    split <;> exact logAdv_refl _
  | peerInit =>
    show LogAdv s.messages (peerInitEffect s).messages
    unfold peerInitEffect
    split <;> exact logAdv_refl _
  | power freshId now =>
    show LogAdv s.messages (togglePower freshId now s).messages
    unfold togglePower
    split
    · exact logAdv_append _ _
    · exact logAdv_refl _
  | typing b =>
    show LogAdv s.messages (handleTyping b s).messages
    unfold handleTyping
    split <;> exact logAdv_refl _
  | sendMsg content replyTo freshId now =>
    show LogAdv s.messages (sendMessage content replyTo freshId now s).messages
    unfold sendMessage
    split
    · exact logAdv_refl _
    · exact logAdv_append _ _
  | editMsg id newContent =>
    show LogAdv s.messages (handleEditMessage id newContent s).messages
    unfold handleEditMessage
    split
    · exact logAdv_refl _
    refine logAdv_map _ _ (fun m => ?_)
    by_cases h : m.id = id
    · simp only [if_pos h]
      exact ⟨rfl, Nat.le_refl _, fun h' => absurd rfl h'⟩
    · simp only [if_neg h]
      exact msgAdv_refl m
  | deleteMsg id =>
    show LogAdv s.messages (handleDeleteMessage id s).messages
    unfold handleDeleteMessage
    split
    · exact logAdv_refl _
    refine logAdv_map _ _ (fun m => ?_)
    by_cases h : m.id = id
    · simp only [if_pos h]
      exact ⟨rfl, Nat.le_refl _, fun h' => absurd rfl h'⟩
    · simp only [if_neg h]
      exact msgAdv_refl m
  | sendF name size mimeType msgId now blobUrl =>
    show LogAdv s.messages (sendFile name size mimeType msgId now blobUrl s).messages
    unfold sendFile
    split
    · exact logAdv_refl _
    · exact logAdv_append _ _
  | disc =>
    show LogAdv s.messages (disconnect s).messages
    unfold disconnect
    split <;> exact logAdv_refl _

theorem applyOps_logAdv (ops : List Op) (s : AppState) :
    LogAdv s.messages (applyOps ops s).messages := by
  induction ops generalizing s with
  | nil => exact logAdv_refl _
  | cons op ops ih =>
    exact logAdv_trans (applyOp_logAdv op s) (ih (applyOp op s))

theorem getElem?_append_of_some {l t : List Message} {i : Nat} {a : Message}
    (ha : l[i]? = some a) : (l ++ t)[i]? = some a := by
  rw [List.getElem?_append_left (List.getElem?_eq_some.mp ha).1]
  exact ha

theorem getElem?_map_of_some {f : Message → Message} {l : List Message}
    {i : Nat} {a : Message} (ha : l[i]? = some a) :
    (l.map f)[i]? = some (f a) := by
  rw [List.getElem?_map, ha, Option.map_some']

/-- Any single operation that is not an inbound ack for a record's id
leaves that record's id and status unchanged (at its position in the
log). -/
theorem applyOp_keepStatus (op : Op) (s : AppState) (i : Nat) (a : Message)
    (ha : s.messages[i]? = some a) (h : isAckFor a.id op = false) :
    ∃ b, (applyOp op s).messages[i]? = some b ∧ b.id = a.id ∧
      b.status = a.status := by
  cases op with
  | connData freshId now blobUrl d =>
    cases d with
    | text c replyTo => exact ⟨a, getElem?_append_of_some ha, rfl, rfl⟩
    | file i2 n size mt => exact ⟨a, getElem?_append_of_some ha, rfl, rfl⟩
    | ack mid =>
      have hne : ¬(a.id = mid) := by
        simp only [isAckFor, beq_eq_false_iff_ne, ne_eq] at h
        exact fun he => h he.symm
      exact ⟨_, getElem?_map_of_some ha, by rw [if_neg hne], by rw [if_neg hne]⟩
    | edit mid c =>
      refine ⟨_, getElem?_map_of_some ha, ?_, ?_⟩ <;>
        by_cases hm : a.id = mid <;> simp [hm]
    | delete mid =>
      refine ⟨_, getElem?_map_of_some ha, ?_, ?_⟩ <;>
        by_cases hm : a.id = mid <;> simp [hm]
    | typing b => exact ⟨a, ha, rfl, rfl⟩
  | connOpen freshId now => exact ⟨a, getElem?_append_of_some ha, rfl, rfl⟩
  | connClose freshId now => exact ⟨a, getElem?_append_of_some ha, rfl, rfl⟩
  | connError errMsg => exact ⟨a, ha, rfl, rfl⟩
  | peerOpen id => exact ⟨a, ha, rfl, rfl⟩
  | inboundOffer remotePeer =>
    show ∃ b, ((onPeerConnection remotePeer s).1).messages[i]? = some b ∧ _
    unfold onPeerConnection
    split <;> exact ⟨a, ha, rfl, rfl⟩
  | peerError errType errMsg =>
    show ∃ b, (onPeerError errType errMsg s).messages[i]? = some b ∧ _
    unfold onPeerError
    split <;> exact ⟨a, ha, rfl, rfl⟩
  | connect targetId =>
    show ∃ b, (connectToPeer targetId s).messages[i]? = some b ∧ _
    unfold connectToPeer
    split
    · exact ⟨a, ha, rfl, rfl⟩
    split
    · exact ⟨a, ha, rfl, rfl⟩
    split
    · exact ⟨a, ha, rfl, rfl⟩
    · exact ⟨a, ha, rfl, rfl⟩
  | identityChange newId =>
    show ∃ b, (handleIdentityChange newId s).messages[i]? = some b ∧ _
    unfold handleIdentityChange
    split <;> exact ⟨a, ha, rfl, rfl⟩
  | peerInit =>
    show ∃ b, (peerInitEffect s).messages[i]? = some b ∧ _
    unfold peerInitEffect
    split <;> exact ⟨a, ha, rfl, rfl⟩
  | power freshId now =>
    show ∃ b, (togglePower freshId now s).messages[i]? = some b ∧ _
    unfold togglePower
    split
    · exact ⟨a, getElem?_append_of_some ha, rfl, rfl⟩
    · exact ⟨a, ha, rfl, rfl⟩
  | typing tb =>
    show ∃ b, (handleTyping tb s).messages[i]? = some b ∧ _
    unfold handleTyping
    split <;> exact ⟨a, ha, rfl, rfl⟩
  | sendMsg content replyTo freshId now =>
    show ∃ b, (sendMessage content replyTo freshId now s).messages[i]? = some b ∧ _
    unfold sendMessage
    split
    · exact ⟨a, ha, rfl, rfl⟩
    · exact ⟨a, getElem?_append_of_some ha, rfl, rfl⟩
  | editMsg id newContent =>
    show ∃ b, (handleEditMessage id newContent s).messages[i]? = some b ∧ _
    unfold handleEditMessage
    split
    · exact ⟨a, ha, rfl, rfl⟩
    refine ⟨_, getElem?_map_of_some ha, ?_, ?_⟩ <;>
      by_cases hm : a.id = id <;> simp [hm]
  | deleteMsg id =>
    show ∃ b, (handleDeleteMessage id s).messages[i]? = some b ∧ _
    unfold handleDeleteMessage
    split
    · exact ⟨a, ha, rfl, rfl⟩
    refine ⟨_, getElem?_map_of_some ha, ?_, ?_⟩ <;>
      by_cases hm : a.id = id <;> simp [hm]
  | sendF name size mimeType msgId now blobUrl =>
    show ∃ b,
      (sendFile name size mimeType msgId now blobUrl s).messages[i]? = some b ∧ _
    unfold sendFile
    split
    · exact ⟨a, ha, rfl, rfl⟩
    · exact ⟨a, getElem?_append_of_some ha, rfl, rfl⟩
  | disc =>
    show ∃ b, (disconnect s).messages[i]? = some b ∧ _
    unfold disconnect
    split <;> exact ⟨a, ha, rfl, rfl⟩

/-- Over a whole sequence of operations containing no ack for a record's
id, the record keeps its id and status at its position in the log. -/
theorem applyOps_keepStatus (ops : List Op) (s : AppState) (i : Nat)
    (a : Message) (ha : s.messages[i]? = some a)
    (h : ∀ op ∈ ops, isAckFor a.id op = false) :
    ∃ b, (applyOps ops s).messages[i]? = some b ∧ b.id = a.id ∧
      b.status = a.status := by
  induction ops generalizing s a with
  | nil => exact ⟨a, ha, rfl, rfl⟩
  | cons op ops ih =>
    obtain ⟨b, hb, hbid, hbst⟩ :=
      applyOp_keepStatus op s i a ha (h op (List.mem_cons_self op ops))
    obtain ⟨c, hc, hcid, hcst⟩ := ih (applyOp op s) b hb
      (fun o ho => by rw [hbid]; exact h o (List.mem_cons_of_mem op ho))
    exact ⟨c, hc, hcid.trans hbid, hcst.trans hbst⟩

/-- Mapping a guarded id-match update over a log that contains no record
with the matched id is the identity. -/
theorem map_no_match (l : List Message) (mid : String) (f : Message → Message)
    (h : ∀ m ∈ l, m.id ≠ mid) :
    (l.map (fun msg => if msg.id = mid then f msg else msg)) = l := by
  induction l with
  | nil => rfl
  | cons m l ih =>
    rw [List.map_cons, if_neg (h m (List.mem_cons_self m l)),
      ih (fun x hx => h x (List.mem_cons_of_mem m hx))]

/-- C2: every invocation of `sendMessage` while the session is not
CONNECTED appends no message, sends no envelope, and has exactly one
observable effect: a single diagnostic error log entry. -/
theorem C2_sendMessage_not_connected (content : String)
    (replyTo : Option ReplyContext) (freshId : String) (now : Nat)
    (s : AppState) (h : s.status ≠ .CONNECTED) :
    sendMessage content replyTo freshId now s =
      { s with logs := s.logs ++
          [{ message := "Cannot send: No active uplink.", type := .error }] } := by
  unfold sendMessage
  rw [if_pos (Or.inr h)]
  rfl

/-- C2 witness: concrete instance in the READY state. -/
theorem C2_witness :
    sendMessage "hello" none "m1" 5 readyState =
      { readyState with logs := readyState.logs ++
          [{ message := "Cannot send: No active uplink.", type := .error }] } :=
  C2_sendMessage_not_connected "hello" none "m1" 5 readyState (by decide)

/-- C4: any sequence of inbound ack/edit/delete envelopes whose target
message id matches no record of the log leaves the message log unchanged
(silent no-op; the handler is a total function, so no exception can be
raised). -/
theorem C4_stale_signals_noop (ops : List Op) (s : AppState)
    (h : ∀ op ∈ ops, ∃ freshId now blobUrl d,
      op = Op.connData freshId now blobUrl d ∧
      ∃ mid, sigId d = some mid ∧ ∀ m ∈ s.messages, m.id ≠ mid) :
    (applyOps ops s).messages = s.messages := by
  induction ops generalizing s with
  | nil => rfl
  | cons op ops ih =>
    obtain ⟨f, n, b, d, hop, mid, hmid, hno⟩ := h op (List.mem_cons_self op ops)
    subst hop
    have hstep : (applyOp (Op.connData f n b d) s).messages = s.messages := by
      cases d with
      | ack m =>
        simp only [sigId, Option.some.injEq] at hmid
        subst hmid
        exact map_no_match s.messages m _ hno
      | edit m c =>
        simp only [sigId, Option.some.injEq] at hmid
        subst hmid
        exact map_no_match s.messages m _ hno
      | delete m =>
        simp only [sigId, Option.some.injEq] at hmid
        subst hmid
        exact map_no_match s.messages m _ hno
      | text c replyTo => simp [sigId] at hmid
      | file i2 n2 size mt => simp [sigId] at hmid
      | typing b2 => simp [sigId] at hmid
    have hrw : applyOps (Op.connData f n b d :: ops) s =
        applyOps ops (applyOp (Op.connData f n b d) s) := rfl
    rw [hrw, ih (applyOp (Op.connData f n b d) s) ?_, hstep]
    intro o ho
    obtain ⟨f', n', b', d', hop', mid', hmid', hno'⟩ :=
      h o (List.mem_cons_of_mem _ ho)
    exact ⟨f', n', b', d', hop', mid', hmid', by rw [hstep]; exact hno'⟩

/-- C4 witness: an ack, an edit and a delete for absent id `zz` leave the
one-message log of `chattingState` unchanged. -/
theorem C4_witness :
    (applyOps [Op.connData "g1" 7 "u" (.ack "zz"),
               Op.connData "g2" 8 "u" (.edit "zz" "x"),
               Op.connData "g3" 9 "u" (.delete "zz")] chattingState).messages =
      chattingState.messages :=
  C4_stale_signals_noop _ chattingState (by
    intro op hop
    simp only [List.mem_cons, List.not_mem_nil, or_false] at hop
    rcases hop with rfl | rfl | rfl
    · exact ⟨"g1", 7, "u", _, rfl, "zz", rfl, by decide⟩
    · exact ⟨"g2", 8, "u", _, rfl, "zz", rfl, by decide⟩
    · exact ⟨"g3", 9, "u", _, rfl, "zz", rfl, by decide⟩)

/-- C6: an inbound connection offer arriving while a channel handle is
already held is closed immediately (second component `true`) and the only
state change is one diagnostic log entry: status, channel handle and
message log are untouched. -/
theorem C6_concurrent_offer_rejected (s : AppState) (remotePeer : String)
    (h : s.conn ≠ none) :
    onPeerConnection remotePeer s =
      ({ s with logs := s.logs ++
          [{ message := "Rejected concurrent connection attempt",
             type := .warning }] }, true) := by
  unfold onPeerConnection
  rw [if_pos h]
  rfl

/-- C6 witness: concrete instance in the connected state. -/
theorem C6_witness :
    onPeerConnection "CCC333" connectedState =
      ({ connectedState with logs := connectedState.logs ++
          [{ message := "Rejected concurrent connection attempt",
             type := .warning }] }, true) :=
  C6_concurrent_offer_rejected connectedState "CCC333" (by decide)

/-- C8: applying the same ack twice is idempotent: after the first
application every record with the acknowledged id has status `delivered`,
and the second application leaves the entire message log unchanged. -/
theorem C8_ack_idempotent (s : AppState) (mid : String)
    (f1 : String) (n1 : Nat) (b1 : String)
    (f2 : String) (n2 : Nat) (b2 : String) :
    (∀ m ∈ (onConnData f1 n1 b1 (.ack mid) s).messages,
        m.id = mid → m.status = some .delivered) ∧
    (onConnData f2 n2 b2 (.ack mid)
        (onConnData f1 n1 b1 (.ack mid) s)).messages =
      (onConnData f1 n1 b1 (.ack mid) s).messages := by
  constructor
  · intro m hm hid
    obtain ⟨a, _, rfl⟩ := List.mem_map.mp hm
    by_cases h : a.id = mid
    · simp only [if_pos h]
    · simp only [if_neg h] at hid ⊢
      exact absurd hid h
  · show List.map _ (List.map _ s.messages) = List.map _ s.messages
    rw [List.map_map]
    refine List.map_congr_left (fun a _ => ?_)
    by_cases h : a.id = mid
    · simp only [Function.comp_apply, if_pos h]
    · simp only [Function.comp_apply, if_neg h]

/-- C8 witness: double ack of `m1` in `chattingState` equals a single
ack. -/
theorem C8_witness :
    (onConnData "g2" 2 "u" (.ack "m1")
        (onConnData "g1" 1 "u" (.ack "m1") chattingState)).messages =
      (onConnData "g1" 1 "u" (.ack "m1") chattingState).messages :=
  (C8_ack_idempotent chattingState "m1" "g1" 1 "u" "g2" 2 "u").2

/-- C3: over every sequence of core operations, every message record keeps
its position and id while its status rank never decreases, and any status
change lands on `delivered`; moreover a single operation that is not an
inbound ack for a record's id never changes that record's status at all —
so `sending`/`sent` are fixed at creation and the only later change is to
`delivered` via ack application. -/
theorem C3_status_never_regresses :
    (∀ (ops : List Op) (s : AppState),
      LogAdv s.messages (applyOps ops s).messages) ∧
    (∀ (op : Op) (s : AppState) (i : Nat) (a : Message),
      s.messages[i]? = some a → isAckFor a.id op = false →
      ∃ b, (applyOp op s).messages[i]? = some b ∧ b.id = a.id ∧
        b.status = a.status) :=
  ⟨fun ops s => applyOps_logAdv ops s, applyOp_keepStatus⟩

/-- C3 witness: acknowledging `m1` advances the sent record of
`chattingState` at position 0 (id kept, rank non-decreasing, change lands
on `delivered`). -/
theorem C3_witness :
    ∃ b, (applyOps [Op.connData "g1" 1 "u" (.ack "m1")]
        chattingState).messages[0]? = some b ∧ MsgAdv sentMsg b :=
  C3_status_never_regresses.1 [Op.connData "g1" 1 "u" (.ack "m1")]
    chattingState 0 sentMsg (by decide)

/-- C1 counterexample: the claim fails in two reachable corners.  With the
peer object present but the session still INITIALIZING (not READY),
`connectToPeer` is not rejected: it transitions the session to CONNECTING.
And with no peer object, a connect aimed at the node's own (empty,
unconfirmed) identity is dropped with no diagnostic log entry at all. -/
theorem C1_counterexample :
    (initializingState.status ≠ .READY ∧
     (connectToPeer "BBB222" initializingState).status = .CONNECTING ∧
     (connectToPeer "BBB222" initializingState).status ≠
       initializingState.status) ∧
    (bootState.peerId = "" ∧ connectToPeer "" bootState = bootState) := by
  decide

/-- C1 amended: when no peer object is registered, `connectToPeer` is a
complete silent no-op.  With a peer object present, the call is rejected
with exactly one diagnostic log entry and no other state change precisely
when the session is CONNECTED or the target equals the node's confirmed
identity; from any other status — READY or not — it appends one log
entry, transitions to CONNECTING and adopts the new channel handle. -/
theorem C1_connect_guard (s : AppState) (targetId : String) :
    (s.peer = none → connectToPeer targetId s = s) ∧
    (s.peer ≠ none → s.status = .CONNECTED →
      connectToPeer targetId s =
        addLog s "Already connected. Terminate current link first." .warning) ∧
    (s.peer ≠ none → s.status ≠ .CONNECTED → targetId = s.peerId →
      connectToPeer targetId s =
        addLog s "Cannot connect to self. Targeting external node required."
          .error) ∧
    (s.peer ≠ none → s.status ≠ .CONNECTED → targetId ≠ s.peerId →
      connectToPeer targetId s =
        { addLog s ("Initiating handshake with " ++ targetId ++ "...") .info with
            status := .CONNECTING, conn := some targetId }) := by
  refine ⟨fun h1 => ?_, fun h1 h2 => ?_, fun h1 h2 h3 => ?_, fun h1 h2 h3 => ?_⟩
  · unfold connectToPeer
    rw [if_pos h1]
  · unfold connectToPeer
    rw [if_neg h1, if_pos h2]
  · unfold connectToPeer
    rw [if_neg h1, if_neg h2, if_pos h3]
  · unfold connectToPeer
    rw [if_neg h1, if_neg h2, if_neg h3]

/-- C1 witness: from the INITIALIZING state with a peer object, connect
proceeds to CONNECTING. -/
theorem C1_witness :
    connectToPeer "BBB222" initializingState =
      { addLog initializingState
          ("Initiating handshake with " ++ "BBB222" ++ "...") .info with
          status := .CONNECTING, conn := some "BBB222" } :=
  (C1_connect_guard initializingState "BBB222").2.2.2 (by decide) (by decide)
    (by decide)

/-- C7: changing the identity while powered on (the `desiredId` update plus
the re-run of the peer-init effect, which destroys the previous peer
registration and registers the new identity) re-enters INITIALIZING and
leaves the message log exactly unchanged — the `messages` field of the
resulting state is untouched, so no record is removed or altered.
(`peer.destroy()` also closes any active channel at the transport layer;
the installed close handler `onConnClose` only ever appends a
system-authored record.) -/
theorem C7_identity_change_preserves_log (s : AppState) (newId : String)
    (hOn : s.isSystemOn = true) (hne : newId ≠ s.peerId) :
    peerInitEffect (handleIdentityChange newId s) =
      { s with status := .INITIALIZING, peerId := "", isRemoteTyping := false,
               desiredId := newId,
               logs := s.logs ++
                 [{ message := "Re-initializing node with new identity: " ++ newId,
                    type := .info }] ++
                 [{ message := "Generating cryptographic identity...",
                    type := .info }],
               peer := some newId } := by
  unfold handleIdentityChange peerInitEffect
  rw [if_neg hne]
  split
  · next hfalse =>
    simp only [addLog] at hfalse
    rw [hOn] at hfalse
    exact absurd hfalse (by decide)
  · rfl

/-- C7 witness: identity change from the connected chatting state keeps the
one-message log intact and re-enters INITIALIZING under `CCC333`. -/
theorem C7_witness :
    peerInitEffect (handleIdentityChange "CCC333" chattingState) =
      { chattingState with status := .INITIALIZING, peerId := "",
                           isRemoteTyping := false, desiredId := "CCC333",
                           logs := chattingState.logs ++
                             [{ message :=
                                  "Re-initializing node with new identity: " ++
                                    "CCC333",
                                type := .info }] ++
                             [{ message := "Generating cryptographic identity...",
                                type := .info }],
                           peer := some "CCC333" } :=
  C7_identity_change_preserves_log chattingState "CCC333" (by decide) (by decide)

/-- C5: a local file send appends a message under the generated id with
status `sending` and sends a `file` envelope carrying that id; the
receiver of that envelope appends a remote file message, produces a
diagnostic success entry and sends back `ack` with the carried id; receipt
of that ack transitions the sender's record to `delivered`; and under any
operation sequence containing no ack for that id the record keeps status
`sending` indefinitely (there is no timeout-driven retry anywhere in the
operation alphabet). -/
theorem C5_file_transfer_ack (s r : AppState) (name : String) (size : Nat)
    (mt msgId : String) (now : Nat) (blobUrl : String)
    (f2 : String) (n2 : Nat) (b2 : String)
    (f3 : String) (n3 : Nat) (b3 : String)
    (hc : s.conn ≠ none) (hs : s.status = .CONNECTED) :
    ((sendFile name size mt msgId now blobUrl s).messages =
        s.messages ++
          [{ id := msgId, sender := .loc, senderId := some s.peerId,
             content := "Sending file: " ++ name, timestamp := now,
             type := .file, status := some .sending,
             file := some { name := name, size := size, mimeType := mt,
                            blobUrl := some blobUrl } }] ∧
      (sendFile name size mt msgId now blobUrl s).sentEnvelopes =
        s.sentEnvelopes ++ [.file msgId name size mt]) ∧
    (onConnData f2 n2 b2 (.file msgId name size mt) r =
      { r with isRemoteTyping := false,
               messages := r.messages ++
                 [{ id := f2, sender := .remote,
                    senderId := some (r.conn.getD ""),
                    content := "Received file: " ++ name, timestamp := n2,
                    type := .file,
                    file := some { name := name, size := size, mimeType := mt,
                                   blobUrl := some b2 } }],
               logs := r.logs ++
                 [{ message := "Received file packet: " ++ name,
                    type := .success }],
               sentEnvelopes := r.sentEnvelopes ++ [.ack msgId] }) ∧
    ((onConnData f3 n3 b3 (.ack msgId)
        (sendFile name size mt msgId now blobUrl s)).messages[s.messages.length]? =
      some { id := msgId, sender := .loc, senderId := some s.peerId,
             content := "Sending file: " ++ name, timestamp := now,
             type := .file, status := some .delivered,
             file := some { name := name, size := size, mimeType := mt,
                            blobUrl := some blobUrl } }) ∧
    (∀ ops : List Op, (∀ op ∈ ops, isAckFor msgId op = false) →
      ∃ b, (applyOps ops
          (sendFile name size mt msgId now blobUrl s)).messages[s.messages.length]? =
        some b ∧ b.id = msgId ∧ b.status = some .sending) := by
  have hguard : ¬(s.conn = none ∨ s.status ≠ .CONNECTED) := by
    rintro (h | h)
    · exact hc h
    · exact h hs
  have hsf : sendFile name size mt msgId now blobUrl s =
      { s with logs := s.logs ++
                 [{ message := "Initiating file transfer: " ++ name ++ "...",
                    type := .info }],
               sentEnvelopes := s.sentEnvelopes ++ [.file msgId name size mt],
               messages := s.messages ++
                 [{ id := msgId, sender := .loc, senderId := some s.peerId,
                    content := "Sending file: " ++ name, timestamp := now,
                    type := .file, status := some .sending,
                    file := some { name := name, size := size, mimeType := mt,
                                   blobUrl := some blobUrl } }] } := by
    unfold sendFile
    rw [if_neg hguard]
    rfl
  refine ⟨⟨by rw [hsf], by rw [hsf]⟩, rfl, ?_, ?_⟩
  · rw [hsf]
    show ((s.messages ++ _).map _)[s.messages.length]? = _
    rw [getElem?_map_of_some (List.getElem?_concat_length _ _)]
    simp
  · intro ops hops
    have hfm : (sendFile name size mt msgId now blobUrl
        s).messages[s.messages.length]? =
        some { id := msgId, sender := .loc, senderId := some s.peerId,
               content := "Sending file: " ++ name, timestamp := now,
               type := .file, status := some .sending,
               file := some { name := name, size := size, mimeType := mt,
                              blobUrl := some blobUrl } } := by
      rw [hsf]
      exact List.getElem?_concat_length _ _
    obtain ⟨b, hb, hid, hst⟩ :=
      applyOps_keepStatus ops _ s.messages.length _ hfm hops
    exact ⟨b, hb, hid, hst⟩

/-- C5 witness: concrete file send from the connected state appends the
`sending` record under the generated id `f1`. -/
theorem C5_witness :
    (sendFile "doc.pdf" 2048 "application/pdf" "f1" 2 "blob:doc"
        connectedState).messages =
      connectedState.messages ++
        [{ id := "f1", sender := .loc, senderId := some "AAA111",
           content := "Sending file: " ++ "doc.pdf", timestamp := 2,
           type := .file, status := some .sending,
           file := some { name := "doc.pdf", size := 2048,
                          mimeType := "application/pdf",
                          blobUrl := some "blob:doc" } }] :=
  ((C5_file_transfer_ack connectedState connectedState "doc.pdf" 2048
      "application/pdf" "f1" 2 "blob:doc" "g2" 3 "u" "g3" 4 "u"
      (by decide) (by decide)).1).1

/-- C9: inbound text/file envelopes are appended under the freshly
generated local id, never under any id carried in the envelope — the file
envelope's id is used only in the returned ack; consequently, when the
generated ids differ from the sender-side id `m`, a later remote
edit/delete referencing `m` matches no record and leaves the receiver's
log unchanged. -/
theorem C9_remote_records_use_local_ids (s : AppState) (freshId : String)
    (now : Nat) (blobUrl : String) (m n c : String) (size : Nat) (mt : String)
    (replyTo : Option ReplyContext) (f2 : String) (n2 : Nat) (b2 : String) :
    ((onConnData freshId now blobUrl (.text c replyTo) s).messages =
       s.messages ++
         [{ id := freshId, sender := .remote, senderId := some (s.conn.getD ""),
            content := c, timestamp := now, type := .text,
            replyTo := replyTo }]) ∧
    ((onConnData freshId now blobUrl (.file m n size mt) s).messages =
       s.messages ++
         [{ id := freshId, sender := .remote, senderId := some (s.conn.getD ""),
            content := "Received file: " ++ n, timestamp := now, type := .file,
            file := some { name := n, size := size, mimeType := mt,
                           blobUrl := some blobUrl } }] ∧
     (onConnData freshId now blobUrl (.file m n size mt) s).sentEnvelopes =
       s.sentEnvelopes ++ [.ack m]) ∧
    (freshId ≠ m → (∀ msg ∈ s.messages, msg.id ≠ m) →
      (∀ msg ∈ (onConnData freshId now blobUrl (.file m n size mt) s).messages,
         msg.id ≠ m) ∧
      (onConnData f2 n2 b2 (.edit m c)
          (onConnData freshId now blobUrl (.file m n size mt) s)).messages =
        (onConnData freshId now blobUrl (.file m n size mt) s).messages ∧
      (onConnData f2 n2 b2 (.delete m)
          (onConnData freshId now blobUrl (.file m n size mt) s)).messages =
        (onConnData freshId now blobUrl (.file m n size mt) s).messages) := by
  refine ⟨rfl, ⟨rfl, rfl⟩, fun hf hno => ?_⟩
  have hall : ∀ msg ∈ (onConnData freshId now blobUrl
      (.file m n size mt) s).messages, msg.id ≠ m := by
    intro msg hmsg
    rcases List.mem_append.mp hmsg with hl | hr
    · exact hno msg hl
    · rw [List.mem_singleton.mp hr]
      exact hf
  exact ⟨hall, map_no_match _ m _ hall, map_no_match _ m _ hall⟩

/-- C9 witness: a remote file envelope carrying sender-side id `f9` is
appended under local id `r1`, and a following remote edit of `f9` is a
no-op on the receiver's log. -/
theorem C9_witness :
    (onConnData "g2" 3 "u" (.edit "f9" "new")
        (onConnData "r1" 2 "blob:x" (.file "f9" "a.txt" 7 "text/plain")
          chattingState)).messages =
      (onConnData "r1" 2 "blob:x" (.file "f9" "a.txt" 7 "text/plain")
          chattingState).messages :=
  ((C9_remote_records_use_local_ids chattingState "r1" 2 "blob:x" "f9" "a.txt"
      "new" 7 "text/plain" none "g2" 3 "u").2.2 (by decide) (by decide)).2.1

/-- C10: the channel error handler returns the session to READY and clears
the remote-typing flag while leaving the channel handle in place (the
state equality updates neither `conn` nor `messages`); a READY state still
holding a channel handle is reachable from boot; while the handle is held
every inbound offer is closed and rejected; and a channel close event, a
manual disconnect, a power-off, or the destroy-triggered close event of an
identity change sets the handle to `none` again. -/
theorem C10_error_keeps_handle :
    (∀ (s : AppState) (e : String), onConnError e s =
      { s with logs := s.logs ++
                 [{ message := "Connection error: " ++ e, type := .error }],
               status := .READY, isRemoteTyping := false }) ∧
    ((applyOps [Op.peerInit, Op.peerOpen "AAA111", Op.inboundOffer "BBB222",
                Op.connOpen "s1" 10, Op.connError "fault"] bootState).status =
        .READY ∧
     (applyOps [Op.peerInit, Op.peerOpen "AAA111", Op.inboundOffer "BBB222",
                Op.connOpen "s1" 10, Op.connError "fault"] bootState).conn =
        some "BBB222") ∧
    (∀ (s : AppState) (rp : String), s.conn ≠ none →
      (onPeerConnection rp s).2 = true ∧
      (onPeerConnection rp s).1.conn = s.conn ∧
      (onPeerConnection rp s).1.status = s.status ∧
      (onPeerConnection rp s).1.messages = s.messages) ∧
    (∀ (s : AppState) (f : String) (n : Nat) (newId : String),
      (onConnClose f n s).conn = none ∧
      (disconnect s).conn = none ∧
      (s.isSystemOn = true → (togglePower f n s).conn = none) ∧
      (onConnClose f n (peerInitEffect (handleIdentityChange newId s))).conn =
        none) := by
  refine ⟨fun s e => rfl, by decide, fun s rp h => ?_, fun s f n newId => ?_⟩
  · unfold onPeerConnection
    rw [if_pos h]
    exact ⟨rfl, rfl, rfl, rfl⟩
  · refine ⟨rfl, ?_, fun hOn => ?_, rfl⟩
    · unfold disconnect
      split
      · rfl
      · next h => exact not_not.mp h
    · unfold togglePower
      rw [if_pos hOn]
      rfl

/-- C10 witness: in the reachable READY-with-handle state after a channel
error, a concrete inbound offer is closed and rejected. -/
theorem C10_witness :
    (onPeerConnection "DDD444" (onConnError "fault" connectedState)).2 =
      true :=
  (C10_error_keeps_handle.2.2.1 (onConnError "fault" connectedState) "DDD444"
    (by decide)).1
